import Mathlib

/-!
Verification of the tcollector metrics-agent specification against the
repository. The repository snapshot contains the unit-test suite
(tests.py) and one collector script (riak.py); the core module
tcollector.py itself is absent, so the pipeline operations exercised by
the tests are modelled from the specification, with the behavior the
tests assert taken as the authority wherever the two disagree.
-/

namespace Tcollector

/-! ## Line grammar (reader validation)

Modelled from the spec: a line is valid iff it matches
`metric timestamp value tag*` where the metric is a nonempty identifier,
the timestamp is digits with an optional interior dot (Scenario B shows
`123.24` accepted), the value is an integer or decimal float literal or a
Python boolean literal (the tests test_bool_true_converted_int and
test_bool_false_converted_int in tests.py assert that boolean values are
accepted, and spec section 9 records that the source accepts booleans via
weak numeric coercion), and each tag is `k=v` over identifier characters.
-/

/-- Split a character list on a separator character (kernel-reducible
analogue of splitting a string on a one-character separator). -/
def splitOnChar (sep : Char) : List Char → List (List Char)
  | [] => [[]]
  | c :: cs =>
      let r := splitOnChar sep cs
      if c == sep then [] :: r
      else
        match r with
        | [] => [[c]]
        | t :: ts => (c :: t) :: ts

def isMetricChar (c : Char) : Bool :=
  c.isAlphanum || c == '-' || c == '_' || c == '.' || c == '/'

def isIdent (s : List Char) : Bool :=
  !s.isEmpty && s.all isMetricChar

def isDigits (s : List Char) : Bool :=
  !s.isEmpty && s.all Char.isDigit

/-- Timestamp token: digits, optionally with a single interior dot. -/
def isTimestampTok (s : List Char) : Bool :=
  match splitOnChar '.' s with
  | [a] => isDigits a
  | [a, b] => isDigits a && isDigits b
  | _ => false

/-- Integer or decimal floating literal, with optional leading sign. -/
def isNumericTok (s : List Char) : Bool :=
  let t := match s with
    | '-' :: rest => rest
    | '+' :: rest => rest
    | _ => s
  match splitOnChar '.' t with
  | [a] => isDigits a
  | [a, b] => isDigits a && isDigits b
  | _ => false

/-- Value token accepted by the reader: a numeric literal, or a Python
boolean literal (accepted because bool is an int subtype in the source
language; see tests.py lines 32-58). -/
def isValueTok (s : List Char) : Bool :=
  isNumericTok s || s == "True".toList || s == "False".toList

/-- Tag token `k=v`, both sides nonempty identifier strings. -/
def isTagTok (s : List Char) : Bool :=
  match splitOnChar '=' s with
  | [k, v] => isIdent k && isIdent v
  | _ => false

/-- Whitespace-separated tokens of a line (empty fragments dropped,
matching splitting on runs of spaces). -/
def tokens (line : String) : List (List Char) :=
  (splitOnChar ' ' line.toList).filter (fun t => !t.isEmpty)

/-- Modelled from the spec: validity of one input line, section 4.2. -/
def valid_line (line : String) : Bool :=
  match tokens line with
  | metric :: ts :: v :: tags =>
      isIdent metric && isTimestampTok ts && isValueTok v && tags.all isTagTok
  | _ => false

/-! ## Collector record and reader -/

/-- Collector record bookkeeping, fields as serialized by tests.py
test_json. -/
structure Collector where
  name : String
  interval : Nat
  filename : String
  mtime : Nat
  lastspawn : Nat
  killstate : Nat
  nextkill : Nat
  lines_sent : Nat
  lines_received : Nat
  lines_invalid : Nat
  last_datapoint : Nat
  dead : Bool
deriving DecidableEq, Repr

/-- Modelled from the spec: the constructor Collector(name, interval,
filename) used by the tests, counters zeroed, last_datapoint stamped with
the current time. -/
def Collector.init (name : String) (interval : Nat) (filename : String)
    (mtime : Nat) (lastspawn : Nat) (now : Nat) : Collector :=
  ⟨name, interval, filename, mtime, lastspawn, 0, 0, 0, 0, 0, now, false⟩

/-- Reader state: the reader queue and the configured namespace prefix
string (empty string when none is configured, matching the falsy check in
the source language). -/
structure ReaderThread where
  readerq : List String
  ns_pfx : String
deriving DecidableEq, Repr

/-- Modelled from the spec: ReaderThread.process_line (absent from the
repository snapshot; behavior fixed by tests.py lines 30-84 and 205-216
and spec sections 4.2 and 8). Counts the line as received; if it fails
validation it is dropped and counted invalid; otherwise the namespace
prefix, when configured, is concatenated onto the front and the line is
appended to the reader queue. -/
def process_line (r : ReaderThread) (col : Collector) (line : String) :
    ReaderThread × Collector :=
  let col := { col with lines_received := col.lines_received + 1 }
  if valid_line line then
    let out := if r.ns_pfx == "" then line else r.ns_pfx ++ line
    ({ r with readerq := r.readerq ++ [out] }, col)
  else
    (r, { col with lines_invalid := col.lines_invalid + 1 })

/-- Feed a list of lines through process_line in order. -/
def process_lines (r : ReaderThread) (col : Collector) :
    List String → ReaderThread × Collector
  | [] => (r, col)
  | l :: ls =>
      let rc := process_line r col l
      process_lines rc.1 rc.2 ls

/-! ## Sender: TSD endpoint pool, blacklisting, HTTP batch result

Modelled from the spec, sections 4.3 and 8 (SenderThread is absent from
the repository snapshot; behavior fixed by tests.py lines 156-275). The
rotation over the endpoint pool is represented by keeping the pool as a
list whose head is the next candidate: picking an endpoint rotates the
list so that scanning resumes just past the endpoint picked, which is the
same cyclic order as an index walking a fixed list. -/

/-- A TSD endpoint: host and port. -/
abbrev Endpoint := String × Nat

/-- Sender state: the rotated endpoint pool, the currently selected
endpoint (the host/port pair the sender last picked), the blacklist as a
list of endpoints with the time at which each blacklisting expires, and
the configured reconnect interval. -/
structure SenderThread where
  hosts : List Endpoint
  selected : Option Endpoint
  blacklisted : List (Endpoint × Nat)
  reconnectinterval : Nat
deriving DecidableEq, Repr

/-- Modelled from the spec: the SenderThread constructor over a pool of
endpoints (shuffle stubbed to the identity, as in the tests). -/
def SenderThread.init (tsds : List Endpoint) (reconnectinterval : Nat) :
    SenderThread :=
  ⟨tsds, none, [], reconnectinterval⟩

/-- An endpoint is blacklisted at time `now` when some blacklist entry
for it has not yet expired. -/
def is_blacklisted (s : SenderThread) (now : Nat) (e : Endpoint) : Bool :=
  s.blacklisted.any (fun be => be.1 == e && now < be.2)

/-- Expiry time recorded for an endpoint (0 when never blacklisted). -/
def expiry_of (s : SenderThread) (e : Endpoint) : Nat :=
  match s.blacklisted.find? (fun be => be.1 == e) with
  | some be => be.2
  | none => 0

/-- Scan the pool for the first endpoint not rejected by `B`; `acc`
holds the rejected prefix. On success, return the endpoint together with
the pool rotated so that scanning resumes just past it. -/
def pick_from (B : Endpoint → Bool) : List Endpoint → List Endpoint →
    Option (Endpoint × List Endpoint)
  | [], _ => none
  | h :: t, acc =>
      if B h then pick_from B t (acc ++ [h])
      else some (h, t ++ acc ++ [h])

/-- Left fold selecting the element minimizing `f` (first on ties). -/
def pick_min (f : Endpoint → Nat) (b : Endpoint) (t : List Endpoint) : Endpoint :=
  t.foldl (fun best e => if f e < f best then e else best) b

/-- The pooled endpoint whose recorded blacklist expiry is soonest
(first in pool order on ties). -/
def soonest_expiring (s : SenderThread) : Option Endpoint :=
  match s.hosts with
  | [] => none
  | h :: t => some (pick_min (expiry_of s) h t)

/-- Modelled from the spec: pick_connection chooses the next
non-blacklisted endpoint in rotation; if every pooled endpoint is
blacklisted it selects the one whose blacklist expiry is soonest,
accepting the risk (spec section 4.3). -/
def pick_connection (now : Nat) (s : SenderThread) : SenderThread :=
  match pick_from (fun e => is_blacklisted s now e) s.hosts [] with
  | some (e, hosts) => { s with selected := some e, hosts := hosts }
  | none =>
      match soonest_expiring s with
      | some e => { s with selected := some e }
      | none => s

/-- Modelled from the spec: blacklist_connection marks the currently
selected endpoint blacklisted for the configured reconnect interval. -/
def blacklist_connection (now : Nat) (s : SenderThread) : SenderThread :=
  match s.selected with
  | some e => { s with blacklisted := s.blacklisted ++ [(e, now + s.reconnectinterval)] }
  | none => s

/-- The endpoints selected by `n` consecutive pick_connection calls with
no intervening blacklisting. -/
def pick_iter (now : Nat) (s : SenderThread) : Nat → List Endpoint
  | 0 => []
  | n + 1 =>
      let s := pick_connection now s
      (s.selected.elim [] (fun e => [e])) ++ pick_iter now s n

/-- Outcome of one HTTP POST of the queued batch: a response status
code, or a transport-level failure. -/
inductive HttpOutcome where
  | status (code : Nat)
  | ioError
deriving DecidableEq, Repr

/-- Modelled from the spec: send_data in HTTP mode classifies the
response (spec sections 4.3 and 8, tests.py lines 183-202). A 2xx
response means the batch was delivered, so the send queue is emptied; a
4xx response means the batch is permanently rejected, so it is dropped;
any other status, or a transport failure, leaves the queue intact for
retry. -/
def send_data_http (sendq : List String) (o : HttpOutcome) : List String :=
  match o with
  | .ioError => sendq
  | .status code =>
      if 200 ≤ code ∧ code < 300 then []
      else if 400 ≤ code ∧ code < 500 then []
      else sendq

/-! ## Status surface -/

/-- A JSON scalar as used by the collector status document. -/
inductive JVal where
  | jstr (s : String)
  | jnat (n : Nat)
  | jbool (b : Bool)
deriving DecidableEq, Repr

/-- Modelled from the spec: Collector.to_json, the serialized snapshot
of one collector record (tests.py lines 116-134). -/
def Collector.to_json (c : Collector) : List (String × JVal) :=
  [("name", .jstr c.name),
   ("mtime", .jnat c.mtime),
   ("lastspawn", .jnat c.lastspawn),
   ("killstate", .jnat c.killstate),
   ("nextkill", .jnat c.nextkill),
   ("lines_sent", .jnat c.lines_sent),
   ("lines_received", .jnat c.lines_received),
   ("lines_invalid", .jnat c.lines_invalid),
   ("last_datapoint", .jnat c.last_datapoint),
   ("dead", .jbool c.dead)]

/-- Modelled from the spec: the document served by the status server for
the whole collector table, the JSON array of per-record snapshots
(tests.py lines 140-153). -/
def status_document (collectors : List Collector) : List (List (String × JVal)) :=
  collectors.map Collector.to_json

/-! ## The riak collector (src/collectors/available/software/long-lived/riak.py)

Translated from the source. The collector returns 13 at once when
/usr/lib/riak is absent; otherwise it enters an unconditional loop that
each iteration fetches the configured stats endpoint, emits one metric
line per recognized key (latencies scaled from microseconds to seconds),
emits connected_nodes as a count, and sleeps. The embedding makes the
filesystem check, the per-iteration clock and the per-iteration HTTP
response explicit inputs, and represents the loop by the list of
observable events of its first `fuel` iterations together with the
returned exit status, which is `none` whenever the loop branch is taken
because the loop body contains no return. -/

/-- The MAP table of riak.py lines 55-105: riak stat key to (metric
name, tag string). -/
def riakMAP : List (String × String × String) :=
  [("vnode_gets_total", ("vnode.requests", "type=get")),
   ("vnode_puts_total", ("vnode.requests", "type=put")),
   ("vnode_gets", ("vnode.requests.last.minute", "type=get")),
   ("vnode_puts", ("vnode.requests.last.minute", "type=put")),
   ("vnode_index_reads", ("vnode.indexing", "type=read")),
   ("vnode_index_writes", ("vnode.indexing", "type=write")),
   ("vnode_index_deletes", ("vnode.indexing", "type=delete")),
   ("vnode_index_writes_postings", ("vnode.index.posting", "type=write")),
   ("vnode_index_deletes_postings", ("vnode.index.posting", "type=delete")),
   ("node_gets_total", ("node.requests", "type=get")),
   ("node_puts_total", ("node.requests", "type=put")),
   ("node_gets", ("node.requests.last.minute", "type=get")),
   ("node_puts", ("node.requests.last.minute", "type=put")),
   ("node_get_fsm_active", ("node.active.fsm", "type=get")),
   ("node_put_fsm_active", ("node.active.fsm", "type=put")),
   ("node_get_fsm_time_mean", ("node.latency.mean", "type=get")),
   ("node_get_fsm_time_median", ("node.latency.median", "type=get")),
   ("node_get_fsm_time_95", ("node.latency.95th", "type=get")),
   ("node_get_fsm_time_99", ("node.latency.99th", "type=get")),
   ("node_get_fsm_time_100", ("node.latency.100th", "type=get")),
   ("node_put_fsm_time_mean", ("node.latency.mean", "type=put")),
   ("node_put_fsm_time_median", ("node.latency.median", "type=put")),
   ("node_put_fsm_time_95", ("node.latency.95th", "type=put")),
   ("node_put_fsm_time_99", ("node.latency.99th", "type=put")),
   ("node_put_fsm_time_100", ("node.latency.100th", "type=put")),
   ("node_get_fsm_rejected", ("node.rejected.fsm", "type=get")),
   ("node_put_fsm_rejected", ("node.rejected.fsm", "type=put")),
   ("node_get_fsm_siblings_mean", ("node.siblings.mean", "")),
   ("node_get_fsm_siblings_median", ("node.siblings.median", "")),
   ("node_get_fsm_siblings_95", ("node.siblings.95th", "")),
   ("node_get_fsm_siblings_99", ("node.siblings.99th", "")),
   ("node_get_fsm_siblings_100", ("node.siblings.100th", "")),
   ("node_get_fsm_objsize_mean", ("node.object.size.mean", "")),
   ("node_get_fsm_objsize_median", ("node.object.size.median", "")),
   ("node_get_fsm_objsize_95", ("node.object.size.95th", "")),
   ("node_get_fsm_objsize_99", ("node.object.size.99th", "")),
   ("node_get_fsm_objsize_100", ("node.object.size.100th", "")),
   ("pbc_connects_total", ("connections", "")),
   ("pbc_active", ("pbc.active", "")),
   ("read_repairs_total", ("read_repairs", "")),
   ("sys_process_count", ("sys_process_count", "")),
   ("executing_mappers", ("executing_mappers", "")),
   ("mem_allocated", ("memory.allocated", "")),
   ("mem_total", ("memory.total", "")),
   ("memory_processes_used", ("memory.erlang", "")),
   ("index_fsm_active", ("index.active.fsm", "")),
   ("list_fsm_active", ("key.listing.active", "")),
   ("cpu_nprocs", ("os.processes", ""))]

/-- One JSON stats document fetched from the riak stats endpoint:
the numeric entries in document order (null values as none), and the
connected_nodes list when the key is present. -/
structure RiakResponse where
  stats : List (String × Option Rat)
  connected_nodes : Option (List String)

/-- Observable actions of the riak collector: an HTTP fetch of a URL, or
one emitted metric line (metric name, timestamp, value, tag string). -/
inductive RiakEvent where
  | fetch (url : String)
  | stat (metric : String) (ts : Int) (value : Rat) (tags : String)

/-- Environment the riak collector runs against: whether /usr/lib/riak
exists, the stats endpoint URL from the configuration, and the clock
value and stats document of each loop iteration. -/
structure RiakEnv where
  riak_lib_exists : Bool
  stats_endpoint : String
  times : Nat → Int
  responses : Nat → RiakResponse

/-- Containment of a character pattern in a character list. -/
def containsSub (pat : List Char) : List Char → Bool
  | [] => pat.isEmpty
  | c :: t => pat.isPrefixOf (c :: t) || containsSub pat t

/-- The division hack of riak.py line 135: a metric containing the word
latency is reported in microseconds and scaled to seconds. -/
def latency_metric (m : String) : Bool :=
  containsSub "latency".toList m.toList

/-- Events of one iteration of the riak main loop (riak.py lines
124-143): fetch the stats endpoint, then for each key of the document in
order, when the key is in MAP and its value is not null, print the stat
with the latency scaling applied; finally print connected_nodes as the
length of its list when present. -/
def riak_iteration (endpoint : String) (resp : RiakResponse) (ts : Int) :
    List RiakEvent :=
  RiakEvent.fetch endpoint ::
    (resp.stats.filterMap (fun kv =>
      match riakMAP.lookup kv.1 with
      | none => none
      | some mt =>
          match kv.2 with
          | none => none
          | some v =>
              let v := if latency_metric mt.1 then v / 1000000 else v
              some (RiakEvent.stat ("riak." ++ mt.1) ts v mt.2))
    ++ (match resp.connected_nodes with
        | some ns => [RiakEvent.stat "riak.connected_nodes" ts (ns.length : Rat) ""]
        | none => []))

/-- Events of the first `fuel` iterations of the riak main loop,
starting at iteration `k`. -/
def riak_loop (env : RiakEnv) : Nat → Nat → List RiakEvent
  | _, 0 => []
  | k, fuel + 1 =>
      riak_iteration env.stats_endpoint (env.responses k) (env.times k)
        ++ riak_loop env (k + 1) fuel

/-- Translated from riak.py main (lines 108-143): when /usr/lib/riak
does not exist, return 13 having performed no action; otherwise run the
unconditional loop, which contains no return statement, so within any
number `fuel` of iterations the function has produced only the loop
events and no return value. -/
def riak_main (env : RiakEnv) (fuel : Nat) : Option Nat × List RiakEvent :=
  if !env.riak_lib_exists then (some 13, [])
  else (none, riak_loop env 0 fuel)

/-! ## Reader lemmas -/

theorem process_line_of_valid (r : ReaderThread) (c : Collector) (line : String)
    (h : valid_line line = true) :
    process_line r c line =
      ({ r with readerq := r.readerq ++ [if r.ns_pfx == "" then line else r.ns_pfx ++ line] },
       { c with lines_received := c.lines_received + 1 }) := by
  simp [process_line, h]

theorem process_line_of_invalid (r : ReaderThread) (c : Collector) (line : String)
    (h : valid_line line = false) :
    process_line r c line =
      (r, { c with lines_received := c.lines_received + 1,
                   lines_invalid := c.lines_invalid + 1 }) := by
  simp [process_line, h]

/-- C2: for every sequence of lines that are valid under the reader
grammar, process_line (with no namespace prefix configured) enqueues each
line unchanged onto the reader queue in the order fed, lines_received
increments once per line, and lines_invalid stays unchanged. -/
theorem process_line_valid_lines_in_order
    (lines : List String) (r : ReaderThread) (c : Collector)
    (hval : ∀ l ∈ lines, valid_line l = true) (hp : r.ns_pfx = "") :
    (process_lines r c lines).1.readerq = r.readerq ++ lines ∧
    (process_lines r c lines).2.lines_received = c.lines_received + lines.length ∧
    (process_lines r c lines).2.lines_invalid = c.lines_invalid := by
  induction lines generalizing r c with
  | nil => simp [process_lines]
  | cons l ls ih =>
    have hl : valid_line l = true := hval l (List.mem_cons_self l ls)
    have hrest : ∀ x ∈ ls, valid_line x = true :=
      fun x hx => hval x (List.mem_cons_of_mem l hx)
    have hout : (if r.ns_pfx == "" then l else r.ns_pfx ++ l) = l := by
      rw [hp]; simp
    simp only [process_lines]
    rw [process_line_of_valid r c l hl, hout]
    obtain ⟨h1, h2, h3⟩ := ih { r with readerq := r.readerq ++ [l] }
      { c with lines_received := c.lines_received + 1 } hrest hp
    refine ⟨?_, ?_, ?_⟩
    · rw [h1]; simp
    · rw [h2]; simp; omega
    · exact h3

/-- Witness for C2 at the concrete lines of Scenario B. -/
theorem process_line_valid_lines_in_order_witness :
    (process_lines ⟨[], ""⟩ (Collector.init "c" 1 "c" 0 0 0)
        ["mymetric 123.24 12 a=b", "mymetric 124 12.7 a=b", "mymetric 125 12.7"]).1.readerq
      = ["mymetric 123.24 12 a=b", "mymetric 124 12.7 a=b", "mymetric 125 12.7"] ∧
    (process_lines ⟨[], ""⟩ (Collector.init "c" 1 "c" 0 0 0)
        ["mymetric 123.24 12 a=b", "mymetric 124 12.7 a=b", "mymetric 125 12.7"]).2.lines_received
      = 3 ∧
    (process_lines ⟨[], ""⟩ (Collector.init "c" 1 "c" 0 0 0)
        ["mymetric 123.24 12 a=b", "mymetric 124 12.7 a=b", "mymetric 125 12.7"]).2.lines_invalid
      = 0 := by
  have h := process_line_valid_lines_in_order
    ["mymetric 123.24 12 a=b", "mymetric 124 12.7 a=b", "mymetric 125 12.7"]
    ⟨[], ""⟩ (Collector.init "c" 1 "c" 0 0 0) (by decide) rfl
  simpa using h

/-- C3: every line failing the reader grammar is not enqueued; the
collector counts it as received and as invalid, and the reader state is
untouched. -/
theorem process_line_invalid_rejected
    (r : ReaderThread) (c : Collector) (line : String)
    (h : valid_line line = false) :
    (process_line r c line).1 = r ∧
    (process_line r c line).2.lines_invalid = c.lines_invalid + 1 ∧
    (process_line r c line).2.lines_received = c.lines_received + 1 := by
  rw [process_line_of_invalid r c line h]
  exact ⟨rfl, rfl, rfl⟩

/-- Witness for C3: the two rejected lines of the test test_bad_float,
fed in sequence, leave the queue empty with both counters at 2. -/
theorem process_line_invalid_rejected_witness :
    valid_line "xxx" = false ∧
    valid_line "mymetric 123 Value a=b" = false ∧
    (process_lines ⟨[], ""⟩ (Collector.init "c" 1 "c" 0 0 0)
        ["xxx", "mymetric 123 Value a=b"]).1.readerq = [] ∧
    (process_lines ⟨[], ""⟩ (Collector.init "c" 1 "c" 0 0 0)
        ["xxx", "mymetric 123 Value a=b"]).2.lines_received = 2 ∧
    (process_lines ⟨[], ""⟩ (Collector.init "c" 1 "c" 0 0 0)
        ["xxx", "mymetric 123 Value a=b"]).2.lines_invalid = 2 := by
  have h1 := process_line_invalid_rejected ⟨[], ""⟩ (Collector.init "c" 1 "c" 0 0 0)
    "xxx" (by decide)
  have h2 := process_line_invalid_rejected
    (process_line ⟨[], ""⟩ (Collector.init "c" 1 "c" 0 0 0) "xxx").1
    (process_line ⟨[], ""⟩ (Collector.init "c" 1 "c" 0 0 0) "xxx").2
    "mymetric 123 Value a=b" (by decide)
  exact ⟨by decide, by decide, by decide, by decide, by decide⟩

/-- C5: for every valid line and every nonempty configured namespace
prefix, the reader enqueues the prefix concatenated directly onto the
front of the line, with lines_received incremented and lines_invalid
unchanged. -/
theorem process_line_ns_pfx_prepended
    (r : ReaderThread) (c : Collector) (line p : String)
    (hval : valid_line line = true) (hpfx : r.ns_pfx = p) (hne : p ≠ "") :
    (process_line r c line).1.readerq = r.readerq ++ [p ++ line] ∧
    (process_line r c line).2.lines_received = c.lines_received + 1 ∧
    (process_line r c line).2.lines_invalid = c.lines_invalid := by
  rw [process_line_of_valid r c line hval]
  have hout : (if r.ns_pfx == "" then line else r.ns_pfx ++ line) = p ++ line := by
    rw [hpfx]
    simp [hne]
  rw [hout]
  exact ⟨rfl, rfl, rfl⟩

/-- Witness for C5 at Scenario C: prefix my.namespace. applied to
mymetric 123 12 a=b. -/
theorem process_line_ns_pfx_prepended_witness :
    (process_line ⟨[], "my.namespace."⟩ (Collector.init "c" 1 "c" 0 0 0)
        "mymetric 123 12 a=b").1.readerq = ["my.namespace.mymetric 123 12 a=b"] ∧
    (process_line ⟨[], "my.namespace."⟩ (Collector.init "c" 1 "c" 0 0 0)
        "mymetric 123 12 a=b").2.lines_received = 1 ∧
    (process_line ⟨[], "my.namespace."⟩ (Collector.init "c" 1 "c" 0 0 0)
        "mymetric 123 12 a=b").2.lines_invalid = 0 := by
  have h := process_line_ns_pfx_prepended ⟨[], "my.namespace."⟩
    (Collector.init "c" 1 "c" 0 0 0) "mymetric 123 12 a=b" "my.namespace."
    (by decide) rfl (by decide)
  simpa using h

/-- C1 counterexample: the line mymetric 123 True a=b, whose value field
is a boolean literal, is enqueued by process_line with lines_invalid
left at zero, contrary to the claim that such lines are rejected. The
tests test_bool_true_converted_int and test_bool_false_converted_int of
tests.py assert exactly this acceptance. -/
theorem process_line_bool_accepted_cex :
    (process_line ⟨[], ""⟩ (Collector.init "c" 1 "c" 0 0 0)
        "mymetric 123 True a=b").1.readerq = ["mymetric 123 True a=b"] ∧
    (process_line ⟨[], ""⟩ (Collector.init "c" 1 "c" 0 0 0)
        "mymetric 123 True a=b").2.lines_invalid = 0 ∧
    (process_line ⟨[], ""⟩ (Collector.init "c" 1 "c" 0 0 0)
        "mymetric 123 True a=b").2.lines_received = 1 := by
  decide

/-- C1 amended: for every input line whose value field is a boolean
literal and whose metric, timestamp and tag fields are well formed, the
reader accepts the line: it is enqueued unchanged (no prefix
configured), lines_received increments, and lines_invalid stays
unchanged. -/
theorem process_line_bool_accepted
    (r : ReaderThread) (c : Collector) (line : String)
    (metric ts v : List Char) (tags : List (List Char))
    (htok : tokens line = metric :: ts :: v :: tags)
    (hm : isIdent metric = true) (ht : isTimestampTok ts = true)
    (hv : v = "True".toList ∨ v = "False".toList)
    (htags : tags.all isTagTok = true) (hp : r.ns_pfx = "") :
    (process_line r c line).1.readerq = r.readerq ++ [line] ∧
    (process_line r c line).2.lines_invalid = c.lines_invalid ∧
    (process_line r c line).2.lines_received = c.lines_received + 1 := by
  have hvtok : isValueTok v = true := by
    rcases hv with rfl | rfl <;> simp [isValueTok]
  have hval : valid_line line = true := by
    rw [valid_line, htok]
    simp [hm, ht, hvtok, htags]
  rw [process_line_of_valid r c line hval]
  have hout : (if r.ns_pfx == "" then line else r.ns_pfx ++ line) = line := by
    rw [hp]; simp
  rw [hout]
  exact ⟨rfl, rfl, rfl⟩

/-- Witness for the amended C1 at the line of
test_bool_false_converted_int. -/
theorem process_line_bool_accepted_witness :
    (process_line ⟨[], ""⟩ (Collector.init "c" 1 "c" 0 0 0)
        "mymetric 123 False a=b").1.readerq = ["mymetric 123 False a=b"] ∧
    (process_line ⟨[], ""⟩ (Collector.init "c" 1 "c" 0 0 0)
        "mymetric 123 False a=b").2.lines_invalid = 0 ∧
    (process_line ⟨[], ""⟩ (Collector.init "c" 1 "c" 0 0 0)
        "mymetric 123 False a=b").2.lines_received = 1 := by
  have h := process_line_bool_accepted ⟨[], ""⟩ (Collector.init "c" 1 "c" 0 0 0)
    "mymetric 123 False a=b"
    "mymetric".toList "123".toList "False".toList ["a=b".toList]
    (by decide) (by decide) (by decide) (Or.inr rfl) (by decide) rfl
  simpa using h

/-- C4: classification of the HTTP send result. A 2xx response
(including 204) removes the batch from the send queue, a 4xx response
also removes it, and a response of 500 or greater, or a transport-level
failure, leaves the batch in the queue for retry. -/
theorem send_data_http_classes (q : List String) (code : Nat) :
    (200 ≤ code ∧ code < 300 → send_data_http q (.status code) = []) ∧
    (400 ≤ code ∧ code < 500 → send_data_http q (.status code) = []) ∧
    (500 ≤ code → send_data_http q (.status code) = q) ∧
    send_data_http q .ioError = q := by
  refine ⟨?_, ?_, ?_, rfl⟩
  · intro h
    simp only [send_data_http]
    rw [if_pos h]
  · intro h
    simp only [send_data_http]
    rw [if_neg (by omega), if_pos h]
  · intro h
    simp only [send_data_http]
    rw [if_neg (by omega), if_neg (by omega)]

/-- Witness for C4 at the response codes exercised by
SenderThreadHTTPTests: 204 and 400 clear the single-element queue, 500
preserves it. -/
theorem send_data_http_classes_witness :
    send_data_http ["mymetric 123 12 a=b"] (.status 204) = [] ∧
    send_data_http ["mymetric 123 12 a=b"] (.status 400) = [] ∧
    send_data_http ["mymetric 123 12 a=b"] (.status 500) = ["mymetric 123 12 a=b"] := by
  refine ⟨?_, ?_, ?_⟩
  · exact (send_data_http_classes ["mymetric 123 12 a=b"] 204).1 (by omega)
  · exact (send_data_http_classes ["mymetric 123 12 a=b"] 400).2.1 (by omega)
  · exact (send_data_http_classes ["mymetric 123 12 a=b"] 500).2.2.1 (by omega)

/-- C9: the JSON serialization of a collector record carries exactly the
ten documented fields, each equal to the current value of the record,
and the status server document for a table of collectors is the array of
those per-record serializations. -/
theorem collector_to_json_fields (c : Collector) (cs : List Collector) :
    (c.to_json.map Prod.fst)
      = ["name", "mtime", "lastspawn", "killstate", "nextkill", "lines_sent",
         "lines_received", "lines_invalid", "last_datapoint", "dead"] ∧
    c.to_json.lookup "name" = some (.jstr c.name) ∧
    c.to_json.lookup "mtime" = some (.jnat c.mtime) ∧
    c.to_json.lookup "lastspawn" = some (.jnat c.lastspawn) ∧
    c.to_json.lookup "killstate" = some (.jnat c.killstate) ∧
    c.to_json.lookup "nextkill" = some (.jnat c.nextkill) ∧
    c.to_json.lookup "lines_sent" = some (.jnat c.lines_sent) ∧
    c.to_json.lookup "lines_received" = some (.jnat c.lines_received) ∧
    c.to_json.lookup "lines_invalid" = some (.jnat c.lines_invalid) ∧
    c.to_json.lookup "last_datapoint" = some (.jnat c.last_datapoint) ∧
    c.to_json.lookup "dead" = some (.jbool c.dead) ∧
    status_document cs = cs.map Collector.to_json :=
  ⟨rfl, rfl, rfl, rfl, rfl, rfl, rfl, rfl, rfl, rfl, rfl, rfl⟩

/-- C10: when /usr/lib/riak does not exist the riak collector main
returns 13 at once, having fetched nothing and emitted nothing; when it
exists, main never returns within any number of loop iterations, the
loop body containing no return. -/
theorem riak_main_spec (env : RiakEnv) (fuel : Nat) :
    (env.riak_lib_exists = false → riak_main env fuel = (some 13, [])) ∧
    (env.riak_lib_exists = true → (riak_main env fuel).1 = none) := by
  constructor <;> intro h <;> simp [riak_main, h]

/-- Witness for C10 on concrete environments: a host without
/usr/lib/riak gets exit status 13 and no events; a host with it gets no
exit status after seven iterations. -/
theorem riak_main_spec_witness :
    riak_main ⟨false, "http://localhost:8098/stats", fun _ => 0, fun _ => ⟨[], none⟩⟩ 7
      = (some 13, []) ∧
    (riak_main ⟨true, "http://localhost:8098/stats", fun _ => 0, fun _ => ⟨[], none⟩⟩ 7).1
      = none :=
  ⟨(riak_main_spec ⟨false, "http://localhost:8098/stats", fun _ => 0, fun _ => ⟨[], none⟩⟩ 7).1 rfl,
   (riak_main_spec ⟨true, "http://localhost:8098/stats", fun _ => 0, fun _ => ⟨[], none⟩⟩ 7).2 rfl⟩

/-! ## Sender lemmas: rotation and blacklisting -/

/-- Position of the first occurrence of an endpoint in a pool. -/
def idxOfE (e : Endpoint) : List Endpoint → Nat
  | [] => 0
  | x :: t => if x = e then 0 else idxOfE e t + 1

theorem idxOfE_lt_length (e : Endpoint) :
    ∀ l : List Endpoint, e ∈ l → idxOfE e l < l.length
  | x :: t, h => by
      by_cases hx : x = e
      · simp [idxOfE, hx]
      · have h' : e ∈ t := by
          rcases List.mem_cons.mp h with h1 | h1
          · exact absurd h1.symm hx
          · exact h1
        simp only [idxOfE, if_neg hx, List.length_cons]
        exact Nat.succ_lt_succ (idxOfE_lt_length e t h')

theorem idxOfE_append_of_mem (e : Endpoint) :
    ∀ (l₁ l₂ : List Endpoint), e ∈ l₁ → idxOfE e (l₁ ++ l₂) = idxOfE e l₁
  | x :: t, l₂, h => by
      by_cases hx : x = e
      · simp [idxOfE, hx]
      · have h' : e ∈ t := by
          rcases List.mem_cons.mp h with h1 | h1
          · exact absurd h1.symm hx
          · exact h1
        simp only [List.cons_append, idxOfE, if_neg hx, List.append_eq]
        rw [idxOfE_append_of_mem e t l₂ h']

/-- A scan over an all-rejected pool finds nothing. -/
theorem pick_from_all_rejected (B : Endpoint → Bool) :
    ∀ (l : List Endpoint), (∀ x ∈ l, B x = true) →
      ∀ acc, pick_from B l acc = none
  | [], _, _ => rfl
  | h :: t, hall, acc => by
      have hh : B h = true := hall h (List.mem_cons_self h t)
      simp only [pick_from, hh, if_true]
      exact pick_from_all_rejected B t
        (fun x hx => hall x (List.mem_cons_of_mem h hx)) (acc ++ [h])

/-- When a non-rejected endpoint `e` is in the scanned pool, the scan
succeeds with a non-rejected endpoint; it is either `e` itself, or `e`
survives into the rotated pool strictly closer to the front than it
stood in `acc ++ pool`. -/
theorem pick_from_found (B : Endpoint → Bool) (e : Endpoint) (he : B e = false) :
    ∀ (l acc : List Endpoint), e ∈ l →
      ∃ h l', pick_from B l acc = some (h, l') ∧ B h = false ∧
        (h = e ∨ (e ∈ l' ∧ idxOfE e l' < acc.length + idxOfE e l))
  | [], _, hmem => absurd hmem (List.not_mem_nil e)
  | x :: t, acc, hmem => by
      by_cases hx : B x = true
      · have hxe : x ≠ e := by
          intro hh
          rw [hh, he] at hx
          exact Bool.false_ne_true hx
        have hmem' : e ∈ t := by
          rcases List.mem_cons.mp hmem with h1 | h1
          · exact absurd h1.symm hxe
          · exact h1
        obtain ⟨h, l', heq, hBh, hcase⟩ := pick_from_found B e he t (acc ++ [x]) hmem'
        refine ⟨h, l', ?_, hBh, ?_⟩
        · simp only [pick_from, hx, if_true]
          exact heq
        · rcases hcase with rfl | ⟨hel, hidx⟩
          · exact Or.inl rfl
          · refine Or.inr ⟨hel, ?_⟩
            simp only [idxOfE, if_neg hxe]
            simp only [List.length_append, List.length_cons, List.length_nil] at hidx
            omega
      · have hx' : B x = false := by
          cases hB : B x
          · rfl
          · exact absurd hB hx
        have hpf : pick_from B (x :: t) acc = some (x, t ++ acc ++ [x]) := by
          simp [pick_from, hx']
        by_cases hxe : x = e
        · exact ⟨x, t ++ acc ++ [x], hpf, hx', Or.inl hxe⟩
        · have hmem' : e ∈ t := by
            rcases List.mem_cons.mp hmem with h1 | h1
            · exact absurd h1.symm hxe
            · exact h1
          refine ⟨x, t ++ acc ++ [x], hpf, hx', Or.inr ⟨?_, ?_⟩⟩
          · simp [hmem']
          · have h1 : idxOfE e (t ++ acc ++ [x]) = idxOfE e t := by
              rw [List.append_assoc]
              exact idxOfE_append_of_mem e t (acc ++ [x]) hmem'
            rw [h1]
            simp only [idxOfE, if_neg hxe]
            omega

/-- Core rotation argument: a non-blacklisted pooled endpoint is
selected within a number of consecutive picks bounded by its current
distance from the rotation front. -/
theorem pick_iter_reaches (now : Nat) (e : Endpoint) :
    ∀ (n : Nat) (s : SenderThread), is_blacklisted s now e = false →
      e ∈ s.hosts → idxOfE e s.hosts < n → e ∈ pick_iter now s n := by
  intro n
  induction n with
  | zero => intro s _ _ h; omega
  | succ n ih =>
    intro s hbl hmem hidx
    obtain ⟨h, l', heq, hBh, hcase⟩ :=
      pick_from_found (fun x => is_blacklisted s now x) e hbl s.hosts [] hmem
    have hpc : pick_connection now s = { s with selected := some h, hosts := l' } := by
      simp only [pick_connection, heq]
    rcases hcase with rfl | ⟨hel, hidx'⟩
    · simp [pick_iter, hpc]
    · have hstep := ih { s with selected := some h, hosts := l' } hbl hel
        (by
          show idxOfE e l' < n
          simp only [List.length_nil] at hidx'
          omega)
      simp only [pick_iter, hpc, Option.elim, List.mem_append]
      right
      exact hstep

theorem pick_min_spec (f : Endpoint → Nat) :
    ∀ (t : List Endpoint) (b : Endpoint),
      pick_min f b t ∈ b :: t ∧ f (pick_min f b t) ≤ f b ∧
      ∀ x ∈ t, f (pick_min f b t) ≤ f x
  | [], b =>
      ⟨List.mem_cons_self b [], Nat.le_refl _,
       fun x hx => absurd hx (List.not_mem_nil x)⟩
  | x :: t, b => by
      have hfold : pick_min f b (x :: t) = pick_min f (if f x < f b then x else b) t := rfl
      by_cases hc : f x < f b
      · obtain ⟨h1, h2, h3⟩ := pick_min_spec f t x
        rw [hfold, if_pos hc]
        refine ⟨List.mem_cons_of_mem b h1, Nat.le_trans h2 (Nat.le_of_lt hc), ?_⟩
        intro y hy
        rcases List.mem_cons.mp hy with hh | hh
        · rw [hh]; exact h2
        · exact h3 y hh
      · obtain ⟨h1, h2, h3⟩ := pick_min_spec f t b
        rw [hfold, if_neg hc]
        refine ⟨?_, h2, ?_⟩
        · rcases List.mem_cons.mp h1 with hh | hh
          · simp [hh]
          · exact List.mem_cons_of_mem b (List.mem_cons_of_mem x hh)
        · intro y hy
          rcases List.mem_cons.mp hy with hh | hh
          · rw [hh]; exact Nat.le_trans h2 (Nat.le_of_not_lt hc)
          · exact h3 y hh

/-- C6: pick_connection walks the pool in a fixed rotation skipping
blacklisted endpoints, so each non-blacklisted pooled endpoint is
returned within any window of pool-length consecutive picks; and on the
two-endpoint pool with identity shuffle the trace pick, blacklist, pick,
blacklist, pick selects 4242 then 4243 then 4242. -/
theorem pick_connection_rotation :
    (∀ (s : SenderThread) (now : Nat) (e : Endpoint),
        e ∈ s.hosts → is_blacklisted s now e = false →
        e ∈ pick_iter now s s.hosts.length) ∧
    ((pick_connection 0 (SenderThread.init
        [("localhost", 4242), ("localhost", 4243)] 5)).selected
        = some ("localhost", 4242) ∧
     (pick_connection 0 (blacklist_connection 0 (pick_connection 0
        (SenderThread.init [("localhost", 4242), ("localhost", 4243)] 5)))).selected
        = some ("localhost", 4243) ∧
     (pick_connection 0 (blacklist_connection 0 (pick_connection 0
        (blacklist_connection 0 (pick_connection 0 (SenderThread.init
          [("localhost", 4242), ("localhost", 4243)] 5)))))).selected
        = some ("localhost", 4242)) := by
  constructor
  · intro s now e hmem hbl
    exact pick_iter_reaches now e s.hosts.length s hbl hmem
      (idxOfE_lt_length e s.hosts hmem)
  · exact ⟨by decide, by decide, by decide⟩

/-- Witness for C6: on the two-endpoint pool with nothing blacklisted,
the endpoint 4243 is selected within the first two picks. -/
theorem pick_connection_rotation_witness :
    ("localhost", 4243) ∈ pick_iter 0
      (SenderThread.init [("localhost", 4242), ("localhost", 4243)] 5) 2 :=
  pick_connection_rotation.1
    (SenderThread.init [("localhost", 4242), ("localhost", 4243)] 5)
    0 ("localhost", 4243) (by decide) (by decide)

/-- C7: when every pooled endpoint is blacklisted, pick_connection still
selects an endpoint, one whose recorded blacklist expiry is soonest; in
particular, on the single-endpoint pool the sequence pick, blacklist,
pick selects that endpoint again. -/
theorem pick_connection_all_blacklisted :
    (∀ (s : SenderThread) (now : Nat),
        s.hosts ≠ [] → (∀ x ∈ s.hosts, is_blacklisted s now x = true) →
        ∃ e, (pick_connection now s).selected = some e ∧ e ∈ s.hosts ∧
          ∀ x ∈ s.hosts, expiry_of s e ≤ expiry_of s x) ∧
    (pick_connection 0 (blacklist_connection 0 (pick_connection 0
        (SenderThread.init [("localhost", 4242)] 5)))).selected
      = some ("localhost", 4242) := by
  constructor
  · intro s now hne hall
    have hnone : pick_from (fun x => is_blacklisted s now x) s.hosts [] = none :=
      pick_from_all_rejected _ s.hosts hall []
    obtain ⟨h, t, hht⟩ := List.exists_cons_of_ne_nil hne
    have hsoon : soonest_expiring s = some (pick_min (expiry_of s) h t) := by
      simp [soonest_expiring, hht]
    have hpc : pick_connection now s
        = { s with selected := some (pick_min (expiry_of s) h t) } := by
      simp only [pick_connection, hnone, hsoon]
    obtain ⟨h1, h2, h3⟩ := pick_min_spec (expiry_of s) t h
    refine ⟨pick_min (expiry_of s) h t, by rw [hpc], ?_, ?_⟩
    · rw [hht]
      exact h1
    · intro x hx
      rw [hht] at hx
      rcases List.mem_cons.mp hx with hh | hh
      · rw [hh]
        exact h2
      · exact h3 x hh
  · decide

/-- Witness for C7: a fully blacklisted two-endpoint pool, where the
endpoint expiring at 15 beats the one expiring at 20. -/
theorem pick_connection_all_blacklisted_witness :
    ∃ e, (pick_connection 10 (SenderThread.mk
        [("localhost", 4242), ("localhost", 4243)] none
        [(("localhost", 4242), 20), (("localhost", 4243), 15)] 5)).selected = some e ∧
      e ∈ (SenderThread.mk [("localhost", 4242), ("localhost", 4243)] none
        [(("localhost", 4242), 20), (("localhost", 4243), 15)] 5).hosts ∧
      ∀ x ∈ (SenderThread.mk [("localhost", 4242), ("localhost", 4243)] none
        [(("localhost", 4242), 20), (("localhost", 4243), 15)] 5).hosts,
        expiry_of (SenderThread.mk [("localhost", 4242), ("localhost", 4243)] none
          [(("localhost", 4242), 20), (("localhost", 4243), 15)] 5) e
        ≤ expiry_of (SenderThread.mk [("localhost", 4242), ("localhost", 4243)] none
          [(("localhost", 4242), 20), (("localhost", 4243), 15)] 5) x :=
  pick_connection_all_blacklisted.1
    (SenderThread.mk [("localhost", 4242), ("localhost", 4243)] none
      [(("localhost", 4242), 20), (("localhost", 4243), 15)] 5)
    10 (by decide) (by decide)

/-- C8 counterexample: on the two-endpoint pool, the second of two
consecutive picks with no blacklisting between them selects port 4243,
not 4242 as the claim states; each pick advances the rotation. -/
theorem pick_connection_double_pick_cex :
    (pick_connection 0 (pick_connection 0 (SenderThread.init
        [("localhost", 4242), ("localhost", 4243)] 5))).selected
      = some ("localhost", 4243) ∧
    (pick_connection 0 (pick_connection 0 (SenderThread.init
        [("localhost", 4242), ("localhost", 4243)] 5))).selected
      ≠ some ("localhost", 4242) := by
  decide

/-- C8 amended: with no blacklisting between picks, the single-endpoint
pool yields 4242 on both of two consecutive picks, while the
two-endpoint pool rotates, yielding 4242, 4243, 4242 on three
consecutive picks (as test_doublePickOneConnection and
test_doublePickTwoConnections assert). -/
theorem pick_connection_double_pick :
    ((pick_connection 0 (SenderThread.init [("localhost", 4242)] 5)).selected
        = some ("localhost", 4242) ∧
     (pick_connection 0 (pick_connection 0 (SenderThread.init
        [("localhost", 4242)] 5))).selected = some ("localhost", 4242)) ∧
    ((pick_connection 0 (SenderThread.init
        [("localhost", 4242), ("localhost", 4243)] 5)).selected
        = some ("localhost", 4242) ∧
     (pick_connection 0 (pick_connection 0 (SenderThread.init
        [("localhost", 4242), ("localhost", 4243)] 5))).selected
        = some ("localhost", 4243) ∧
     (pick_connection 0 (pick_connection 0 (pick_connection 0 (SenderThread.init
        [("localhost", 4242), ("localhost", 4243)] 5)))).selected
        = some ("localhost", 4242)) := by
  decide

end Tcollector

